import Mathlib

/-!
Shallow embedding of `src/policies/cache_ext_adaptive_v3.bpf.c`, the adaptive
page-cache eviction engine.  Global mutable state of the BPF program is a
record `V3State`; each `BPF_STRUCT_OPS` hook is a state-transforming function.
Machine `u64` counters are modelled as `Nat` (their increments never wrap in
any behavior the claims probe); `u64` subtraction, which can wrap, is modelled
exactly by `u64_sub`.  Signed `s64` fields (`freq`, the S3-FIFO size counters)
are modelled as `Int`.  The kernel-side list registry
(`bpf_cache_ext_list_add`, `_add_tail`, `_move`, `_del`) is external to the
repository; it is modelled by its interface: each list is a `List Nat` of
folio keys, head first, with the operations of spec section 4.B.  The inode
watchlist (`dir_watcher`) is likewise external and is modelled as a
`Nat → Bool` parameter.
-/

namespace CacheExtV3

def HIT_RATE_THRESHOLD : Nat := 30
def MIN_SAMPLES : Nat := 1000
def MIN_TIME_IN_POLICY : Nat := 10000
def CHECK_INTERVAL : Nat := 1000
def CACHE_SIZE_ESTIMATE : Nat := 50000

def POLICY_MRU : Nat := 0
def POLICY_FIFO : Nat := 1
def POLICY_LRU : Nat := 2
def POLICY_S3FIFO : Nat := 3
def POLICY_LHD_SIMPLE : Nat := 4

/-- Wrapping 64-bit subtraction: the value of the C expression `a - b` on
`u64` operands (with `a`, `b` already reduced mod 2^64). -/
def u64_sub (a b : Nat) : Nat :=
  (a + (2 ^ 64 - b % 2 ^ 64)) % 2 ^ 64

/-- A folio as the hooks see it: `key` is the descriptor address used as the
metadata-map key, `inode` the identity of `mapping->host` (the same inode
identity the watchlist is consulted with), `index` the page offset, and the
three host-reported residency flags (`lru` is `folio_test_lru`, the
"recently used" flag). -/
structure Folio where
  key : Nat
  inode : Nat
  index : Nat
  uptodate : Bool
  lru : Bool
  dirty : Bool
deriving DecidableEq

/-- Per-folio metadata, `struct folio_metadata`. -/
structure folio_metadata where
  added_time : Nat
  last_access_time : Nat
  access_count : Nat
  current_policy : Nat
  freq : Int
  in_main : Bool
  last_hit_age : Nat
deriving DecidableEq

/-- Per-policy statistics, `struct policy_stats`. -/
structure policy_stats where
  hits : Nat
  misses : Nat
  evictions : Nat
  time_started : Nat
  time_active : Nat
deriving DecidableEq

/-- The record published to the ring buffer on a policy switch,
`struct policy_switch_event`. -/
structure policy_switch_event where
  old_policy : Nat
  new_policy : Nat
  timestamp : Nat
  hit_rate : Nat
  total_accesses : Nat
  one_time_ratio : Nat
  sequential_ratio : Nat
  avg_hits_per_page : Nat
  avg_reuse_distance : Nat
  dirty_ratio : Nat
  old_policy_hit_rate : Nat
  working_set_size : Nat
  working_set_ratio : Nat
deriving DecidableEq

/-- The global mutable state of the BPF program: every `static` variable of
`cache_ext_adaptive_v3.bpf.c`, the six policy lists, the `folio_metadata_map`
hash, and the `working_set_map` LRU hash (most recently observed inode
first). -/
structure V3State where
  timestamp : Nat
  total_accesses : Nat
  cache_hits : Nat
  cache_misses : Nat
  total_evictions : Nat
  one_time_accesses : Nat
  multi_accesses : Nat
  last_inode : Nat
  last_offset : Nat
  sequential_accesses : Nat
  random_accesses : Nat
  total_hits_sum : Nat
  pages_evicted : Nat
  reuse_distance_sum : Nat
  reuse_distance_count : Nat
  total_lifetime_sum : Nat
  total_idle_time_sum : Nat
  dirty_evictions : Nat
  working_set_size : Nat
  stats : Nat → policy_stats
  current_policy : Nat
  last_policy_switch_time : Nat
  policy_switch_count : Nat
  mru_list : List Nat
  fifo_list : List Nat
  lru_list : List Nat
  s3fifo_small_list : List Nat
  s3fifo_main_list : List Nat
  lhd_list : List Nat
  s3fifo_small_size : Int
  s3fifo_main_size : Int
  folio_metadata_map : Nat → Option folio_metadata
  working_set_map : List Nat

/-- Point update of the metadata hash (`bpf_map_update_elem`, `BPF_ANY`). -/
def mapUpdate (m : Nat → Option folio_metadata) (k : Nat) (v : folio_metadata) :
    Nat → Option folio_metadata :=
  fun q => if q = k then some v else m q

/-- Point deletion from the metadata hash (`bpf_map_delete_elem`). -/
def mapDelete (m : Nat → Option folio_metadata) (k : Nat) :
    Nat → Option folio_metadata :=
  fun q => if q = k then none else m q

/-- Point update of the `stats` array at index `p`. -/
def statsUpdate (st : Nat → policy_stats) (p : Nat) (v : policy_stats) :
    Nat → policy_stats :=
  fun q => if q = p then v else st q

def WORKING_SET_CAP : Nat := 100000

/-- Model of the BPF LRU hash `working_set_map` (capacity 100000): an update
refreshes the key's recency; inserting a fresh key into a full map drops the
least recently observed one. -/
def ws_insert (m : List Nat) (i : Nat) : List Nat :=
  if i ∈ m then i :: m.erase i
  else if WORKING_SET_CAP ≤ m.length then i :: m.dropLast
  else i :: m

/-- The state right after `adaptive_v3_init` succeeds: the C static
initializers, `current_policy = POLICY_MRU`, all lists and maps empty. -/
def init_state : V3State where
  timestamp := 0
  total_accesses := 0
  cache_hits := 0
  cache_misses := 0
  total_evictions := 0
  one_time_accesses := 0
  multi_accesses := 0
  last_inode := 0
  last_offset := 0
  sequential_accesses := 0
  random_accesses := 0
  total_hits_sum := 0
  pages_evicted := 0
  reuse_distance_sum := 0
  reuse_distance_count := 0
  total_lifetime_sum := 0
  total_idle_time_sum := 0
  dirty_evictions := 0
  working_set_size := 0
  stats := fun _ => ⟨0, 0, 0, 0, 0⟩
  current_policy := POLICY_MRU
  last_policy_switch_time := 0
  policy_switch_count := 0
  mru_list := []
  fifo_list := []
  lru_list := []
  s3fifo_small_list := []
  s3fifo_main_list := []
  lhd_list := []
  s3fifo_small_size := 0
  s3fifo_main_size := 0
  folio_metadata_map := fun _ => none
  working_set_map := []

/-- `is_folio_relevant`: the folio (assumed well formed, with a mapping and a
host) is in scope iff its inode is in the external watchlist `wl`. -/
def is_folio_relevant (wl : Nat → Bool) (f : Folio) : Bool :=
  wl f.inode

def calculate_hit_rate (s : V3State) : Nat :=
  if s.total_accesses = 0 then 0 else s.cache_hits * 100 / s.total_accesses

def calculate_one_time_ratio (s : V3State) : Nat :=
  let total := s.one_time_accesses + s.multi_accesses
  if total = 0 then 0 else s.one_time_accesses * 100 / total

def calculate_sequential_ratio (s : V3State) : Nat :=
  let total := s.sequential_accesses + s.random_accesses
  if total = 0 then 0 else s.sequential_accesses * 100 / total

def calculate_avg_hits_per_page (s : V3State) : Nat :=
  if s.pages_evicted = 0 then 0 else s.total_hits_sum / s.pages_evicted

def calculate_avg_reuse_distance (s : V3State) : Nat :=
  if s.reuse_distance_count = 0 then 0
  else s.reuse_distance_sum / s.reuse_distance_count

def calculate_dirty_ratio (s : V3State) : Nat :=
  if s.total_evictions = 0 then 0
  else s.dirty_evictions * 100 / s.total_evictions

def calculate_policy_hit_rate (st : policy_stats) : Nat :=
  let total := st.hits + st.misses
  if total = 0 then 0 else st.hits * 100 / total

def calculate_working_set_ratio (s : V3State) : Nat :=
  if CACHE_SIZE_ESTIMATE = 0 then 0
  else s.working_set_size * 100 / CACHE_SIZE_ESTIMATE

/-- `update_policy_stats`. -/
def update_policy_stats (st : Nat → policy_stats) (policy : Nat) (hit : Bool) :
    Nat → policy_stats :=
  if 5 ≤ policy then st
  else if hit then statsUpdate st policy { st policy with hits := (st policy).hits + 1 }
  else statsUpdate st policy { st policy with misses := (st policy).misses + 1 }

/-- The fallback clause of `decide_best_policy`: the `for` loop over
`stats[0..4]` returning the policy with the highest historical hit rate
(`best_policy` starts at `POLICY_LRU`, an entry wins only with a strictly
greater rate). -/
def fallback_policy (s : V3State) : Nat :=
  ((List.range 5).foldl
    (fun acc i =>
      let perf := calculate_policy_hit_rate (s.stats i)
      if acc.1 < perf then (perf, i) else acc)
    (0, POLICY_LRU)).2

/-- `decide_best_policy`: the ordered selection cascade. -/
def decide_best_policy (s : V3State) : Nat :=
  let one_time_ratio := calculate_one_time_ratio s
  let sequential_ratio := calculate_sequential_ratio s
  let avg_hits := calculate_avg_hits_per_page s
  let avg_reuse_dist := calculate_avg_reuse_distance s
  let ws_ratio := calculate_working_set_ratio s
  if 300 < ws_ratio then POLICY_FIFO
  else if ws_ratio < 60 then POLICY_MRU
  else if 80 < sequential_ratio then POLICY_FIFO
  else if 60 < one_time_ratio ∧ avg_hits < 2 then POLICY_S3FIFO
  else if 5 < avg_hits ∧ one_time_ratio < 30 then POLICY_MRU
  else if 0 < avg_reuse_dist ∧ avg_reuse_dist < 50000 then POLICY_LRU
  else if 100 < ws_ratio ∧ ws_ratio < 200 then POLICY_LHD_SIMPLE
  else fallback_policy s

/-- `check_and_switch_policy`.  `reserveOk` models whether
`bpf_ringbuf_reserve` succeeds; the returned option is the submitted switch
event, if any. -/
def check_and_switch_policy (reserveOk : Bool) (s : V3State) :
    V3State × Option policy_switch_event :=
  if s.total_accesses < MIN_SAMPLES then (s, none)
  else
    let time_since_switch := u64_sub s.timestamp s.last_policy_switch_time
    if time_since_switch < MIN_TIME_IN_POLICY then (s, none)
    else
      let hit_rate := calculate_hit_rate s
      if HIT_RATE_THRESHOLD ≤ hit_rate then (s, none)
      else
        let new_policy := decide_best_policy s
        if new_policy = s.current_policy then (s, none)
        else
          let st0 := s.stats s.current_policy
          let s1 : V3State :=
            { s with stats := statsUpdate s.stats s.current_policy { st0 with time_active := u64_sub s.timestamp st0.time_started } }
          let ev : Option policy_switch_event :=
            if reserveOk then
              some { old_policy := s.current_policy
                     new_policy := new_policy
                     timestamp := s.timestamp
                     hit_rate := hit_rate
                     total_accesses := s.total_accesses
                     one_time_ratio := calculate_one_time_ratio s
                     sequential_ratio := calculate_sequential_ratio s
                     avg_hits_per_page := calculate_avg_hits_per_page s
                     avg_reuse_distance := calculate_avg_reuse_distance s
                     dirty_ratio := calculate_dirty_ratio s
                     old_policy_hit_rate := calculate_policy_hit_rate (s1.stats s.current_policy)
                     working_set_size := s.working_set_size
                     working_set_ratio := calculate_working_set_ratio s }
            else none
          let s2 : V3State :=
            { s1 with
              current_policy := new_policy
              last_policy_switch_time := s.timestamp
              policy_switch_count := s.policy_switch_count + 1
              stats := statsUpdate s1.stats new_policy { s1.stats new_policy with time_started := s.timestamp }
              total_accesses := 0
              cache_hits := 0
              cache_misses := 0 }
          (s2, ev)

/-- Verdicts of a per-node iterate callback. -/
inductive IterVerdict where
  | CACHE_EXT_CONTINUE_ITER
  | CACHE_EXT_EVICT_NODE
deriving DecidableEq

/-- Move a key within one list (`bpf_cache_ext_list_move`): to the tail when
`tail` is true, else to the head; no effect if the key is not on the list. -/
def list_move (l : List Nat) (k : Nat) (tail : Bool) : List Nat :=
  if k ∈ l then (if tail then l.erase k ++ [k] else k :: l.erase k) else l

/-- `mru_handle_added`: `bpf_cache_ext_list_add` inserts at the head. -/
def mru_handle_added (f : Folio) (s : V3State) : V3State :=
  { s with mru_list := f.key :: s.mru_list }

/-- `mru_handle_accessed`: move to the head of the MRU list. -/
def mru_handle_accessed (f : Folio) (s : V3State) : V3State :=
  { s with mru_list := list_move s.mru_list f.key false }

/-- `mru_iterate_fn`: the per-node eviction verdict of the MRU policy. -/
def mru_iterate_fn (idx : Nat) (node : Folio) : IterVerdict :=
  if idx < 200 ∧ (node.uptodate = false ∨ node.lru = false) then
    .CACHE_EXT_CONTINUE_ITER
  else .CACHE_EXT_EVICT_NODE

/-- `fifo_handle_added`: insert at the tail of the FIFO list. -/
def fifo_handle_added (f : Folio) (s : V3State) : V3State :=
  { s with fifo_list := s.fifo_list ++ [f.key] }

/-- `fifo_iterate_fn`. -/
def fifo_iterate_fn (idx : Nat) (node : Folio) : IterVerdict :=
  if node.uptodate = false ∨ node.lru = false then .CACHE_EXT_CONTINUE_ITER
  else .CACHE_EXT_EVICT_NODE

/-- `lru_handle_added`: insert at the tail of the LRU list. -/
def lru_handle_added (f : Folio) (s : V3State) : V3State :=
  { s with lru_list := s.lru_list ++ [f.key] }

/-- `lru_handle_accessed`: move to the tail of the LRU list. -/
def lru_handle_accessed (f : Folio) (s : V3State) : V3State :=
  { s with lru_list := list_move s.lru_list f.key true }

/-- `lru_iterate_fn`. -/
def lru_iterate_fn (idx : Nat) (node : Folio) : IterVerdict :=
  if node.uptodate = false ∨ node.lru = false then .CACHE_EXT_CONTINUE_ITER
  else .CACHE_EXT_EVICT_NODE

/-- `s3fifo_handle_added`: resets the (local copy of the) metadata, appends
the folio to the small queue and bumps `s3fifo_small_size`.  The C function
mutates a caller-local `struct folio_metadata`; the updated copy is returned
here and, as in the source, the caller drops it. -/
def s3fifo_handle_added (f : Folio) (meta : folio_metadata) (s : V3State) :
    folio_metadata × V3State :=
  ({ meta with freq := 0, in_main := false },
   { s with s3fifo_small_list := s.s3fifo_small_list ++ [f.key]
            s3fifo_small_size := s.s3fifo_small_size + 1 })

/-- `s3fifo_handle_accessed`: saturating increment of `freq` up to 3. -/
def s3fifo_handle_accessed (meta : folio_metadata) : folio_metadata :=
  if meta.freq < 3 then { meta with freq := meta.freq + 1 } else meta

/-- `s3fifo_small_iterate_fn`: verdict for a node of the small queue; on the
promotion path it writes `in_main := true` through the metadata map. -/
def s3fifo_small_iterate_fn (s : V3State) (idx : Nat) (node : Folio) :
    IterVerdict × V3State :=
  if node.uptodate = false ∨ node.lru = false then (.CACHE_EXT_CONTINUE_ITER, s)
  else
    match s.folio_metadata_map node.key with
    | none => (.CACHE_EXT_CONTINUE_ITER, s)
    | some meta =>
      if 1 < meta.freq then
        (.CACHE_EXT_CONTINUE_ITER,
         { s with folio_metadata_map :=
             mapUpdate s.folio_metadata_map node.key { meta with in_main := true } })
      else (.CACHE_EXT_EVICT_NODE, s)

/-- `s3fifo_main_iterate_fn`: verdict for a node of the main queue; a node
with positive `freq` is decremented and kept. -/
def s3fifo_main_iterate_fn (s : V3State) (idx : Nat) (node : Folio) :
    IterVerdict × V3State :=
  if node.uptodate = false ∨ node.lru = false then (.CACHE_EXT_CONTINUE_ITER, s)
  else
    match s.folio_metadata_map node.key with
    | none => (.CACHE_EXT_CONTINUE_ITER, s)
    | some meta =>
      if 0 < meta.freq then
        (.CACHE_EXT_CONTINUE_ITER,
         { s with folio_metadata_map :=
             mapUpdate s.folio_metadata_map node.key { meta with freq := meta.freq - 1 } })
      else (.CACHE_EXT_EVICT_NODE, s)

/-- One node visit of the small-queue sweep that `adaptive_v3_evict_folios`
starts through `bpf_cache_ext_list_iterate_extended`: the callback
`s3fifo_small_iterate_fn` runs, and per the `cache_ext_iterate_opts` used
there (`continue_list` = the main list, `continue_mode` = TAIL) the host
moves a node whose verdict is CONTINUE to the tail of the main queue.  A node
whose verdict is EVICT is handed to the host eviction context (its removal
happens in the `adaptive_v3_folio_evicted` hook). -/
def s3fifo_small_iterate_step (s : V3State) (idx : Nat) (node : Folio) : V3State :=
  match s3fifo_small_iterate_fn s idx node with
  | (.CACHE_EXT_CONTINUE_ITER, s1) =>
    { s1 with s3fifo_small_list := s1.s3fifo_small_list.erase node.key
              s3fifo_main_list := s1.s3fifo_main_list ++ [node.key] }
  | (.CACHE_EXT_EVICT_NODE, s1) => s1

/-- `lhd_handle_added`: tail insert with `last_hit_age = 0` (again on the
caller-local metadata copy, returned and dropped as in the source). -/
def lhd_handle_added (f : Folio) (meta : folio_metadata) (s : V3State) :
    folio_metadata × V3State :=
  ({ meta with last_hit_age := 0 },
   { s with lhd_list := s.lhd_list ++ [f.key] })

/-- `lhd_handle_accessed`: stores `timestamp - meta->last_access_time` into
`last_hit_age`.  Note the caller has already set `last_access_time` to the
current timestamp when this runs. -/
def lhd_handle_accessed (ts : Nat) (meta : folio_metadata) : folio_metadata :=
  let age := u64_sub ts meta.last_access_time
  { meta with last_hit_age := age }

/-- `lhd_iterate_fn`. -/
def lhd_iterate_fn (idx : Nat) (node : Folio) : IterVerdict :=
  if node.uptodate = false ∨ node.lru = false then .CACHE_EXT_CONTINUE_ITER
  else .CACHE_EXT_EVICT_NODE

/-- The `switch (current_policy)` of `adaptive_v3_folio_added`: per-policy
placement of a fresh folio.  The S3-FIFO and hit-density cases mutate the
caller-local metadata copy, which the caller drops. -/
def dispatch_added (f : Folio) (meta : folio_metadata) (s : V3State) : V3State :=
  if s.current_policy = POLICY_MRU then mru_handle_added f s
  else if s.current_policy = POLICY_FIFO then fifo_handle_added f s
  else if s.current_policy = POLICY_LRU then lru_handle_added f s
  else if s.current_policy = POLICY_S3FIFO then (s3fifo_handle_added f meta s).2
  else if s.current_policy = POLICY_LHD_SIMPLE then (lhd_handle_added f meta s).2
  else s

/-- `adaptive_v3_folio_added`: watchlist filter (the C function returns early
on an out-of-scope folio, modelled by the outer conditional), sequential
detection, working-set update, metadata creation, per-policy placement, then
the window counters and the logical clock. -/
def adaptive_v3_folio_added (wl : Nat → Bool) (f : Folio) (s : V3State) : V3State :=
  if is_folio_relevant wl f = true then
    let key := f.key
    let meta : folio_metadata :=
      { added_time := s.timestamp
        last_access_time := s.timestamp
        access_count := 0
        current_policy := s.current_policy
        freq := 0
        in_main := false
        last_hit_age := 0 }
    let curr_inode := f.inode
    let curr_offset := f.index
    let s :=
      if curr_inode = s.last_inode ∧ curr_offset = s.last_offset + 1 then
        { s with sequential_accesses := s.sequential_accesses + 1 }
      else { s with random_accesses := s.random_accesses + 1 }
    let s := { s with last_inode := curr_inode, last_offset := curr_offset }
    let s := { s with working_set_map := ws_insert s.working_set_map curr_inode
                      working_set_size := s.working_set_size + 1 }
    let s := { s with folio_metadata_map := mapUpdate s.folio_metadata_map key meta }
    let s := dispatch_added f meta s
    { s with cache_misses := s.cache_misses + 1
             total_accesses := s.total_accesses + 1
             stats := update_policy_stats s.stats s.current_policy false
             timestamp := s.timestamp + 1 }
  else s

/-- The metadata effect of the `switch (current_policy)` in
`adaptive_v3_folio_accessed`: only the S3-FIFO and hit-density cases mutate
the map-resident entry (`cp` and `ts` are the global `current_policy` and
`timestamp` read by the handlers). -/
def accessed_meta_update (cp ts : Nat) (meta : folio_metadata) : folio_metadata :=
  if cp = POLICY_S3FIFO then s3fifo_handle_accessed meta
  else if cp = POLICY_LHD_SIMPLE then lhd_handle_accessed ts meta
  else meta

/-- The list effect of the same `switch`: only the MRU and LRU cases move the
node. -/
def accessed_list_update (cp : Nat) (f : Folio) (s : V3State) : V3State :=
  if cp = POLICY_MRU then mru_handle_accessed f s
  else if cp = POLICY_LRU then lru_handle_accessed f s
  else s

/-- `adaptive_v3_folio_accessed`: watchlist filter, metadata lookup (miss is
dropped), reuse-distance accumulation captured before `last_access_time` is
overwritten, per-policy on-access rule, then the window counters and the
logical clock. -/
def adaptive_v3_folio_accessed (wl : Nat → Bool) (f : Folio) (s : V3State) : V3State :=
  if is_folio_relevant wl f = true then
    match s.folio_metadata_map f.key with
    | none => s
    | some meta =>
      let s :=
        if 0 < meta.access_count then
          { s with reuse_distance_sum :=
                     s.reuse_distance_sum + u64_sub s.timestamp meta.last_access_time
                   reuse_distance_count := s.reuse_distance_count + 1 }
        else s
      let meta := { meta with last_access_time := s.timestamp
                              access_count := meta.access_count + 1 }
      let meta := accessed_meta_update s.current_policy s.timestamp meta
      let s := accessed_list_update s.current_policy f s
      let s := { s with folio_metadata_map := mapUpdate s.folio_metadata_map f.key meta }
      { s with cache_hits := s.cache_hits + 1
               total_accesses := s.total_accesses + 1
               stats := update_policy_stats s.stats s.current_policy true
               timestamp := s.timestamp + 1 }
  else s

/-- Removal of a folio from whatever policy list holds it
(`bpf_cache_ext_list_del`). -/
def list_del_all (s : V3State) (k : Nat) : V3State :=
  { s with mru_list := s.mru_list.erase k
           fifo_list := s.fifo_list.erase k
           lru_list := s.lru_list.erase k
           s3fifo_small_list := s.s3fifo_small_list.erase k
           s3fifo_main_list := s.s3fifo_main_list.erase k
           lhd_list := s.lhd_list.erase k }

/-- `adaptive_v3_folio_evicted`: per-page aggregates when metadata exists,
the S3-FIFO size bookkeeping (only while the current policy is S3-FIFO), the
dirty tally, list and metadata removal, and the persistent eviction
counters.  Note there is no watchlist filter on this hook. -/
def adaptive_v3_folio_evicted (f : Folio) (s : V3State) : V3State :=
  let key := f.key
  let s :=
    match s.folio_metadata_map key with
    | none => s
    | some meta =>
      let s :=
        if meta.access_count ≤ 1 then
          { s with one_time_accesses := s.one_time_accesses + 1 }
        else { s with multi_accesses := s.multi_accesses + 1 }
      let s := { s with total_hits_sum := s.total_hits_sum + meta.access_count
                        pages_evicted := s.pages_evicted + 1 }
      let lifetime := u64_sub s.timestamp meta.added_time
      let idle_time := u64_sub s.timestamp meta.last_access_time
      let s := { s with total_lifetime_sum := s.total_lifetime_sum + lifetime
                        total_idle_time_sum := s.total_idle_time_sum + idle_time }
      if s.current_policy = POLICY_S3FIFO then
        if meta.in_main then { s with s3fifo_main_size := s.s3fifo_main_size - 1 }
        else { s with s3fifo_small_size := s.s3fifo_small_size - 1 }
      else s
  let s := if f.dirty then { s with dirty_evictions := s.dirty_evictions + 1 } else s
  let s := list_del_all s key
  let s := { s with folio_metadata_map := mapDelete s.folio_metadata_map key }
  { s with total_evictions := s.total_evictions + 1
           stats := statsUpdate s.stats s.current_policy
             { s.stats s.current_policy with
               evictions := (s.stats s.current_policy).evictions + 1 } }

/-- The host-driven events the engine reacts to: the three lifecycle hooks,
the controller tick that `adaptive_v3_evict_folios` performs when
`total_accesses % CHECK_INTERVAL == 0`, and single node visits of the
S3-FIFO sweeps. -/
inductive V3Event where
  | added (f : Folio)
  | accessed (f : Folio)
  | evicted (f : Folio)
  | tick (reserveOk : Bool)
  | small_visit (idx : Nat) (f : Folio)
  | main_visit (idx : Nat) (f : Folio)

def v3_step (wl : Nat → Bool) (e : V3Event) (s : V3State) : V3State :=
  match e with
  | .added f => adaptive_v3_folio_added wl f s
  | .accessed f => adaptive_v3_folio_accessed wl f s
  | .evicted f => adaptive_v3_folio_evicted f s
  | .tick ok => (check_and_switch_policy ok s).1
  | .small_visit idx f => s3fifo_small_iterate_step s idx f
  | .main_visit idx f => (s3fifo_main_iterate_fn s idx f).2

def v3_run (wl : Nat → Bool) (evs : List V3Event) (s : V3State) : V3State :=
  evs.foldl (fun t e => v3_step wl e t) s

/-- Every metadata entry present in the state has `freq` in the saturating
range 0..3. -/
def FreqInv (s : V3State) : Prop :=
  ∀ k m, s.folio_metadata_map k = some m → 0 ≤ m.freq ∧ m.freq ≤ 3

/-- A folio whose host flags are all favorable (uptodate, recently used). -/
def fC1v : Folio := { key := 1, inode := 1, index := 0, uptodate := true, lru := true, dirty := false }

/-- A folio the host reports as not uptodate. -/
def fC1i : Folio := { key := 2, inode := 1, index := 0, uptodate := false, lru := true, dirty := false }

/-- Metadata of a page last accessed at logical time 5 (access count 1),
owned by the hit-density policy. -/
def metaC2 : folio_metadata :=
  { added_time := 2, last_access_time := 5, access_count := 1,
    current_policy := POLICY_LHD_SIMPLE, freq := 0, in_main := false, last_hit_age := 0 }

/-- A state at logical time 9 running the hit-density policy, with `metaC2`
present for folio key 1. -/
def sC2 : V3State :=
  { init_state with current_policy := POLICY_LHD_SIMPLE, timestamp := 9,
                    folio_metadata_map := mapUpdate (fun _ => none) 1 metaC2 }

def fC2 : Folio := { key := 1, inode := 3, index := 0, uptodate := true, lru := true, dirty := false }

/-- Two distinct in-scope folios of the same inode 7. -/
def fC3a : Folio := { key := 1, inode := 7, index := 0, uptodate := true, lru := true, dirty := false }

def fC3b : Folio := { key := 2, inode := 7, index := 5, uptodate := true, lru := true, dirty := false }

/-- The state after two added events for pages of the same inode. -/
def sC3 : V3State := v3_run (fun _ => true) [.added fC3a, .added fC3b] init_state

/-- A state whose gate conditions all hold and whose cascade selects MRU
while the current policy is LRU, so a tick emits a switch event. -/
def sC4 : V3State :=
  { init_state with total_accesses := 1000, timestamp := 20000, current_policy := POLICY_LRU }

/-- The switch event a tick at `sC4` submits. -/
def evC4 : policy_switch_event :=
  { old_policy := POLICY_LRU, new_policy := POLICY_MRU, timestamp := 20000,
    hit_rate := 0, total_accesses := 1000, one_time_ratio := 0,
    sequential_ratio := 0, avg_hits_per_page := 0, avg_reuse_distance := 0,
    dirty_ratio := 0, old_policy_hit_rate := 0, working_set_size := 0,
    working_set_ratio := 0 }

/-- A state whose working-set ratio is exactly 100 and whose other metrics
leave every earlier cascade clause unfired. -/
def sC5a : V3State := { init_state with working_set_size := 50000 }

/-- A state whose working-set ratio is exactly 200, other metrics as above. -/
def sC5b : V3State := { init_state with working_set_size := 100000 }

/-- Metadata of a page that was added while S3-FIFO was the current policy
(it still sits in the small queue, `in_main = false`). -/
def metaD : folio_metadata :=
  { added_time := 0, last_access_time := 0, access_count := 1,
    current_policy := POLICY_S3FIFO, freq := 0, in_main := false, last_hit_age := 0 }

/-- A state reached after a policy switch away from S3-FIFO (current policy
MRU) in which folio key 1, owned by S3-FIFO, still sits in the small queue
and `s3fifo_small_size` still agrees with the queue's length. -/
def sD : V3State :=
  { init_state with s3fifo_small_list := [1], s3fifo_small_size := 1,
                    folio_metadata_map := mapUpdate (fun _ => none) 1 metaD }

def fD : Folio := { key := 1, inode := 3, index := 0, uptodate := true, lru := true, dirty := false }

/-- Metadata with `freq = 2`, eligible for S3-FIFO promotion. -/
def metaW : folio_metadata :=
  { added_time := 0, last_access_time := 0, access_count := 2,
    current_policy := POLICY_S3FIFO, freq := 2, in_main := false, last_hit_age := 0 }

/-- A state running S3-FIFO whose small queue holds folio key 5 with
`freq = 2`. -/
def sW : V3State :=
  { init_state with current_policy := POLICY_S3FIFO, s3fifo_small_list := [5],
                    s3fifo_small_size := 1,
                    folio_metadata_map := mapUpdate (fun _ => none) 5 metaW }

def fW : Folio := { key := 5, inode := 3, index := 0, uptodate := true, lru := true, dirty := false }

end CacheExtV3

namespace CacheExtV3

theorem dispatch_added_working_set (f : Folio) (m : folio_metadata) (s : V3State) :
    (dispatch_added f m s).working_set_size = s.working_set_size := by
  unfold dispatch_added; split_ifs <;> rfl

theorem dispatch_added_current_policy (f : Folio) (m : folio_metadata) (s : V3State) :
    (dispatch_added f m s).current_policy = s.current_policy := by
  unfold dispatch_added; split_ifs <;> rfl

theorem dispatch_added_total_evictions (f : Folio) (m : folio_metadata) (s : V3State) :
    (dispatch_added f m s).total_evictions = s.total_evictions := by
  unfold dispatch_added; split_ifs <;> rfl

theorem dispatch_added_pages_evicted (f : Folio) (m : folio_metadata) (s : V3State) :
    (dispatch_added f m s).pages_evicted = s.pages_evicted := by
  unfold dispatch_added; split_ifs <;> rfl

theorem dispatch_added_stats (f : Folio) (m : folio_metadata) (s : V3State) :
    (dispatch_added f m s).stats = s.stats := by
  unfold dispatch_added; split_ifs <;> rfl

theorem dispatch_added_map (f : Folio) (m : folio_metadata) (s : V3State) :
    (dispatch_added f m s).folio_metadata_map = s.folio_metadata_map := by
  unfold dispatch_added; split_ifs <;> rfl

theorem dispatch_added_timestamp (f : Folio) (m : folio_metadata) (s : V3State) :
    (dispatch_added f m s).timestamp = s.timestamp := by
  unfold dispatch_added; split_ifs <;> rfl

theorem dispatch_added_small_size (f : Folio) (m : folio_metadata) (s : V3State) :
    (dispatch_added f m s).s3fifo_small_size = s.s3fifo_small_size ∨
    (dispatch_added f m s).s3fifo_small_size = s.s3fifo_small_size + 1 := by
  unfold dispatch_added
  split_ifs <;> simp [mru_handle_added, fifo_handle_added, lru_handle_added,
                      s3fifo_handle_added, lhd_handle_added]

theorem dispatch_added_lists (f : Folio) (m : folio_metadata) (s : V3State) :
    ((dispatch_added f m s).mru_list = s.mru_list ∨
     (dispatch_added f m s).mru_list = f.key :: s.mru_list) ∧
    ((dispatch_added f m s).fifo_list = s.fifo_list ∨
     (dispatch_added f m s).fifo_list = s.fifo_list ++ [f.key]) ∧
    ((dispatch_added f m s).lru_list = s.lru_list ∨
     (dispatch_added f m s).lru_list = s.lru_list ++ [f.key]) ∧
    ((dispatch_added f m s).s3fifo_small_list = s.s3fifo_small_list ∨
     (dispatch_added f m s).s3fifo_small_list = s.s3fifo_small_list ++ [f.key]) ∧
    (dispatch_added f m s).s3fifo_main_list = s.s3fifo_main_list ∧
    ((dispatch_added f m s).lhd_list = s.lhd_list ∨
     (dispatch_added f m s).lhd_list = s.lhd_list ++ [f.key]) := by
  unfold dispatch_added
  split_ifs <;> simp [mru_handle_added, fifo_handle_added, lru_handle_added,
                      s3fifo_handle_added, lhd_handle_added]

theorem accessed_list_update_map (cp : Nat) (f : Folio) (s : V3State) :
    (accessed_list_update cp f s).folio_metadata_map = s.folio_metadata_map := by
  unfold accessed_list_update
  split_ifs <;> rfl

/-- The S3-FIFO `freq` field after the on-access metadata update: unchanged,
or — strictly below the saturation bound 3 — incremented by one. -/
theorem accessed_meta_update_freq (cp ts : Nat) (m : folio_metadata) :
    (accessed_meta_update cp ts m).freq = m.freq ∨
    (m.freq < 3 ∧ (accessed_meta_update cp ts m).freq = m.freq + 1) := by
  unfold accessed_meta_update
  split_ifs with hp1 hp2
  · simp only [s3fifo_handle_accessed]
    split_ifs with hf
    · exact Or.inr ⟨hf, rfl⟩
    · exact Or.inl rfl
  · exact Or.inl rfl
  · exact Or.inl rfl

/-- Erasing `k` from a list obtained from a `k`-free list by possibly
inserting `k` at the head or the tail leaves a `k`-free list. -/
theorem not_mem_erase_key (k : Nat) (l l0 : List Nat) (h0 : k ∉ l0)
    (hd : l = l0 ∨ l = k :: l0 ∨ l = l0 ++ [k]) : k ∉ l.erase k := by
  rcases hd with rfl | rfl | rfl
  · rw [List.erase_of_not_mem h0]; exact h0
  · rw [List.erase_cons_head]; exact h0
  · rw [List.erase_append_right _ h0]; simp [h0]

/-- What one in-scope `added` hook call does to the fields the claims track:
the metadata entry it creates, the counters it leaves alone, and the shape of
each policy list afterwards. -/
theorem added_spec (wl : Nat → Bool) (f : Folio) (s : V3State)
    (h : is_folio_relevant wl f = true) :
    (adaptive_v3_folio_added wl f s).folio_metadata_map =
      mapUpdate s.folio_metadata_map f.key
        { added_time := s.timestamp, last_access_time := s.timestamp,
          access_count := 0, current_policy := s.current_policy, freq := 0,
          in_main := false, last_hit_age := 0 } ∧
    (adaptive_v3_folio_added wl f s).current_policy = s.current_policy ∧
    (adaptive_v3_folio_added wl f s).total_evictions = s.total_evictions ∧
    (adaptive_v3_folio_added wl f s).pages_evicted = s.pages_evicted ∧
    (∀ p, ((adaptive_v3_folio_added wl f s).stats p).evictions = (s.stats p).evictions) ∧
    ((adaptive_v3_folio_added wl f s).mru_list = s.mru_list ∨
     (adaptive_v3_folio_added wl f s).mru_list = f.key :: s.mru_list) ∧
    ((adaptive_v3_folio_added wl f s).fifo_list = s.fifo_list ∨
     (adaptive_v3_folio_added wl f s).fifo_list = s.fifo_list ++ [f.key]) ∧
    ((adaptive_v3_folio_added wl f s).lru_list = s.lru_list ∨
     (adaptive_v3_folio_added wl f s).lru_list = s.lru_list ++ [f.key]) ∧
    ((adaptive_v3_folio_added wl f s).s3fifo_small_list = s.s3fifo_small_list ∨
     (adaptive_v3_folio_added wl f s).s3fifo_small_list = s.s3fifo_small_list ++ [f.key]) ∧
    (adaptive_v3_folio_added wl f s).s3fifo_main_list = s.s3fifo_main_list ∧
    ((adaptive_v3_folio_added wl f s).lhd_list = s.lhd_list ∨
     (adaptive_v3_folio_added wl f s).lhd_list = s.lhd_list ++ [f.key]) := by
  simp only [adaptive_v3_folio_added]
  rw [if_pos h]
  split_ifs with hseq <;>
    refine ⟨by simp [dispatch_added_map], by simp [dispatch_added_current_policy],
            by simp [dispatch_added_total_evictions], by simp [dispatch_added_pages_evicted],
            fun p => ?_, (dispatch_added_lists f _ _).1, (dispatch_added_lists f _ _).2.1,
            (dispatch_added_lists f _ _).2.2.1, (dispatch_added_lists f _ _).2.2.2.1,
            (dispatch_added_lists f _ _).2.2.2.2.1, (dispatch_added_lists f _ _).2.2.2.2.2⟩ <;>
    · simp only [update_policy_stats, dispatch_added_stats, dispatch_added_current_policy]
      split_ifs <;> simp_all [statsUpdate] <;> split_ifs <;> simp_all

/-- What one `evicted` hook call does when metadata is present: full list and
map removal, the persistent counters, and the S3-FIFO size bookkeeping. -/
theorem evicted_spec (f : Folio) (s : V3State) (m : folio_metadata)
    (hm : s.folio_metadata_map f.key = some m) :
    (adaptive_v3_folio_evicted f s).folio_metadata_map =
      mapDelete s.folio_metadata_map f.key ∧
    (adaptive_v3_folio_evicted f s).mru_list = s.mru_list.erase f.key ∧
    (adaptive_v3_folio_evicted f s).fifo_list = s.fifo_list.erase f.key ∧
    (adaptive_v3_folio_evicted f s).lru_list = s.lru_list.erase f.key ∧
    (adaptive_v3_folio_evicted f s).s3fifo_small_list = s.s3fifo_small_list.erase f.key ∧
    (adaptive_v3_folio_evicted f s).s3fifo_main_list = s.s3fifo_main_list.erase f.key ∧
    (adaptive_v3_folio_evicted f s).lhd_list = s.lhd_list.erase f.key ∧
    (adaptive_v3_folio_evicted f s).total_evictions = s.total_evictions + 1 ∧
    (adaptive_v3_folio_evicted f s).pages_evicted = s.pages_evicted + 1 ∧
    (adaptive_v3_folio_evicted f s).current_policy = s.current_policy ∧
    (∀ p, ((adaptive_v3_folio_evicted f s).stats p).evictions =
       (s.stats p).evictions + (if p = s.current_policy then 1 else 0)) ∧
    (adaptive_v3_folio_evicted f s).dirty_evictions =
      s.dirty_evictions + (if f.dirty = true then 1 else 0) ∧
    (adaptive_v3_folio_evicted f s).folio_metadata_map f.key = none ∧
    (s.current_policy ≠ POLICY_S3FIFO →
      (adaptive_v3_folio_evicted f s).s3fifo_small_size = s.s3fifo_small_size) := by
  simp only [adaptive_v3_folio_evicted, hm]
  split_ifs <;>
    refine ⟨rfl, rfl, rfl, rfl, rfl, rfl, rfl, rfl, rfl, rfl,
            fun p => ?_, by simp_all [list_del_all], by simp [mapDelete], fun hp => ?_⟩ <;>
    first
      | (simp only [statsUpdate, list_del_all]; split_ifs <;> simp_all)
      | rfl
      | (exact absurd (by assumption) hp)

/-- What one `evicted` hook call does when no metadata is present: the
per-page aggregates stay untouched while the unconditional tallies still
advance. -/
theorem evicted_nometa_spec (f : Folio) (s : V3State)
    (hm : s.folio_metadata_map f.key = none) :
    (adaptive_v3_folio_evicted f s).total_evictions = s.total_evictions + 1 ∧
    (∀ p, ((adaptive_v3_folio_evicted f s).stats p).evictions =
       (s.stats p).evictions + (if p = s.current_policy then 1 else 0)) ∧
    (adaptive_v3_folio_evicted f s).dirty_evictions =
      s.dirty_evictions + (if f.dirty = true then 1 else 0) ∧
    (adaptive_v3_folio_evicted f s).one_time_accesses = s.one_time_accesses ∧
    (adaptive_v3_folio_evicted f s).multi_accesses = s.multi_accesses ∧
    (adaptive_v3_folio_evicted f s).total_hits_sum = s.total_hits_sum ∧
    (adaptive_v3_folio_evicted f s).pages_evicted = s.pages_evicted ∧
    (adaptive_v3_folio_evicted f s).total_lifetime_sum = s.total_lifetime_sum ∧
    (adaptive_v3_folio_evicted f s).total_idle_time_sum = s.total_idle_time_sum ∧
    (adaptive_v3_folio_evicted f s).folio_metadata_map =
      mapDelete s.folio_metadata_map f.key := by
  simp only [adaptive_v3_folio_evicted, hm]
  split_ifs <;>
    refine ⟨rfl, fun p => ?_, by simp_all [list_del_all], rfl, rfl, rfl, rfl, rfl, rfl, rfl⟩ <;>
    · simp only [statsUpdate, list_del_all]
      split_ifs <;> simp_all

theorem tick_map (ok : Bool) (s : V3State) :
    (check_and_switch_policy ok s).1.folio_metadata_map = s.folio_metadata_map := by
  simp only [check_and_switch_policy]
  split_ifs <;> rfl

/-- The metadata map after one in-scope `accessed` hook call: the refreshed
entry passed through the per-policy on-access metadata update. -/
theorem accessed_map (wl : Nat → Bool) (f : Folio) (s : V3State) (meta : folio_metadata)
    (hr : is_folio_relevant wl f = true)
    (hm : s.folio_metadata_map f.key = some meta) :
    (adaptive_v3_folio_accessed wl f s).folio_metadata_map =
      mapUpdate s.folio_metadata_map f.key
        (accessed_meta_update s.current_policy s.timestamp
          { meta with last_access_time := s.timestamp,
                      access_count := meta.access_count + 1 }) := by
  simp only [adaptive_v3_folio_accessed]
  rw [if_pos hr]
  simp only [hm]
  split_ifs with hc <;> rw [accessed_list_update_map]

/-- The metadata map after one small-queue node visit: unchanged, or the
visited node's entry with `in_main` set (its `freq` untouched). -/
theorem small_step_map (s : V3State) (idx : Nat) (f : Folio) :
    (s3fifo_small_iterate_step s idx f).folio_metadata_map = s.folio_metadata_map ∨
    (∃ meta, s.folio_metadata_map f.key = some meta ∧
       (s3fifo_small_iterate_step s idx f).folio_metadata_map =
         mapUpdate s.folio_metadata_map f.key { meta with in_main := true }) := by
  unfold s3fifo_small_iterate_step s3fifo_small_iterate_fn
  split_ifs with hflags
  · exact Or.inl rfl
  · cases hl : s.folio_metadata_map f.key with
    | none => exact Or.inl rfl
    | some meta =>
      dsimp only
      split_ifs with hfreq
      · exact Or.inr ⟨meta, rfl, rfl⟩
      · exact Or.inl rfl

/-- The metadata map after one main-queue node visit: unchanged, or the
visited node's entry with positive `freq` decremented. -/
theorem main_step_map (s : V3State) (idx : Nat) (f : Folio) :
    (s3fifo_main_iterate_fn s idx f).2.folio_metadata_map = s.folio_metadata_map ∨
    (∃ meta, s.folio_metadata_map f.key = some meta ∧ 0 < meta.freq ∧
       (s3fifo_main_iterate_fn s idx f).2.folio_metadata_map =
         mapUpdate s.folio_metadata_map f.key { meta with freq := meta.freq - 1 }) := by
  unfold s3fifo_main_iterate_fn
  split_ifs with hflags
  · exact Or.inl rfl
  · cases hl : s.folio_metadata_map f.key with
    | none => exact Or.inl rfl
    | some meta =>
      dsimp only
      split_ifs with hfreq
      · exact Or.inr ⟨meta, rfl, hfreq, rfl⟩
      · exact Or.inl rfl

theorem freq_inv_added (wl : Nat → Bool) (f : Folio) (s : V3State)
    (hs : FreqInv s) : FreqInv (adaptive_v3_folio_added wl f s) := by
  by_cases hr : is_folio_relevant wl f = true
  · intro k m hk
    rw [(added_spec wl f s hr).1] at hk
    simp only [mapUpdate] at hk
    split_ifs at hk with hkey
    · simp only [Option.some.injEq] at hk
      subst hk
      exact ⟨by norm_num, by norm_num⟩
    · exact hs k m hk
  · intro k m hk
    simp only [adaptive_v3_folio_added] at hk
    rw [if_neg hr] at hk
    exact hs k m hk

theorem freq_inv_accessed (wl : Nat → Bool) (f : Folio) (s : V3State)
    (hs : FreqInv s) : FreqInv (adaptive_v3_folio_accessed wl f s) := by
  by_cases hr : is_folio_relevant wl f = true
  · cases hmm : s.folio_metadata_map f.key with
    | none =>
      intro k m hk
      simp only [adaptive_v3_folio_accessed] at hk
      rw [if_pos hr, hmm] at hk
      exact hs k m hk
    | some meta =>
      intro k m hk
      rw [accessed_map wl f s meta hr hmm] at hk
      simp only [mapUpdate] at hk
      split_ifs at hk with hkey
      · obtain ⟨hlo, hhi⟩ := hs f.key meta hmm
        simp only [Option.some.injEq] at hk
        subst hk
        have hfr := accessed_meta_update_freq s.current_policy s.timestamp
          { meta with last_access_time := s.timestamp,
                      access_count := meta.access_count + 1 }
        dsimp only at hfr
        rcases hfr with he | ⟨hlt, he⟩ <;> constructor <;> omega
      · exact hs k m hk
  · intro k m hk
    simp only [adaptive_v3_folio_accessed] at hk
    rw [if_neg hr] at hk
    exact hs k m hk

theorem freq_inv_evicted (f : Folio) (s : V3State)
    (hs : FreqInv s) : FreqInv (adaptive_v3_folio_evicted f s) := by
  intro k m hk
  cases hmm : s.folio_metadata_map f.key with
  | none =>
    rw [(evicted_nometa_spec f s hmm).2.2.2.2.2.2.2.2.2] at hk
    simp only [mapDelete] at hk
    split_ifs at hk
    exact hs k m hk
  | some meta =>
    rw [(evicted_spec f s meta hmm).1] at hk
    simp only [mapDelete] at hk
    split_ifs at hk
    exact hs k m hk

theorem freq_inv_tick (ok : Bool) (s : V3State)
    (hs : FreqInv s) : FreqInv (check_and_switch_policy ok s).1 := by
  intro k m hk
  rw [tick_map] at hk
  exact hs k m hk

theorem freq_inv_small_visit (s : V3State) (idx : Nat) (f : Folio)
    (hs : FreqInv s) : FreqInv (s3fifo_small_iterate_step s idx f) := by
  intro k m hk
  rcases small_step_map s idx f with hmap | ⟨meta, hl, hmap⟩
  · rw [hmap] at hk; exact hs k m hk
  · rw [hmap] at hk
    simp only [mapUpdate] at hk
    split_ifs at hk with hkey
    · obtain ⟨hlo, hhi⟩ := hs f.key meta hl
      simp only [Option.some.injEq] at hk
      subst hk
      exact ⟨hlo, hhi⟩
    · exact hs k m hk

theorem freq_inv_main_visit (s : V3State) (idx : Nat) (f : Folio)
    (hs : FreqInv s) : FreqInv (s3fifo_main_iterate_fn s idx f).2 := by
  intro k m hk
  rcases main_step_map s idx f with hmap | ⟨meta, hl, hpos, hmap⟩
  · rw [hmap] at hk; exact hs k m hk
  · rw [hmap] at hk
    simp only [mapUpdate] at hk
    split_ifs at hk with hkey
    · obtain ⟨hlo, hhi⟩ := hs f.key meta hl
      simp only [Option.some.injEq] at hk
      subst hk
      constructor <;> simp <;> omega
    · exact hs k m hk

theorem freq_inv_run (wl : Nat → Bool) (evs : List V3Event) :
    ∀ s, FreqInv s → FreqInv (v3_run wl evs s) := by
  induction evs with
  | nil => exact fun s hs => hs
  | cons e rest ih =>
    intro s hs
    refine ih (v3_step wl e s) ?_
    cases e with
    | added f => exact freq_inv_added wl f s hs
    | accessed f => exact freq_inv_accessed wl f s hs
    | evicted f => exact freq_inv_evicted f s hs
    | tick ok => exact freq_inv_tick ok s hs
    | small_visit idx f => exact freq_inv_small_visit s idx f hs
    | main_visit idx f => exact freq_inv_main_visit s idx f hs

/-- C1 (corrected): the MRU iterate verdict is CONTINUE exactly for the nodes
at index &lt; 200 that the host reports as invalid (not uptodate or not
recently used); every still-valid node, at any index, and every node at index
≥ 200 receives the EVICT verdict. -/
theorem C1_mru_iterate_verdict (idx : Nat) (node : Folio) :
    mru_iterate_fn idx node = IterVerdict.CACHE_EXT_CONTINUE_ITER ↔
      idx < 200 ∧ (node.uptodate = false ∨ node.lru = false) := by
  unfold mru_iterate_fn
  split_ifs with h <;> simp [h]

/-- C1 counterexample: at index 0, a node the host reports as uptodate and
recently used receives the EVICT verdict from `mru_iterate_fn`, while a
not-uptodate node at index 0 receives CONTINUE — the opposite of the claimed
protection of valid nodes in the first 200 positions. -/
theorem C1_mru_iterate_counterexample :
    mru_iterate_fn 0 fC1v = IterVerdict.CACHE_EXT_EVICT_NODE ∧
    mru_iterate_fn 0 fC1i = IterVerdict.CACHE_EXT_CONTINUE_ITER := by
  decide

/-- C2 (code bug): an access at logical time 9 to a page whose previous
`last_access_time` is 5 stores `last_hit_age = 0`, not `9 − 5 = 4`:
`lhd_handle_accessed` runs after the dispatcher has already overwritten
`last_access_time` with the current timestamp, so the recorded hit age is
always zero. -/
theorem C2_lhd_last_hit_age_stored_zero :
    (adaptive_v3_folio_accessed (fun _ => true) fC2 sC2).folio_metadata_map 1 =
      some { added_time := 2, last_access_time := 9, access_count := 2,
             current_policy := POLICY_LHD_SIMPLE, freq := 0, in_main := false,
             last_hit_age := 0 } ∧
    u64_sub sC2.timestamp metaC2.last_access_time = 4 := by
  decide

/-- C3 (corrected, amended): the working-set estimate that feeds the
working-set ratio is the counter `working_set_size`, incremented once per
in-scope added event — repeats of the same inode included — and the ratio is
`100 · working_set_size / CACHE_SIZE_ESTIMATE`; it is not the cardinality of
the bounded inode set. -/
theorem C3_working_set_counter (wl : Nat → Bool) (f : Folio) (s : V3State)
    (h : is_folio_relevant wl f = true) :
    (adaptive_v3_folio_added wl f s).working_set_size = s.working_set_size + 1 ∧
    calculate_working_set_ratio s = s.working_set_size * 100 / CACHE_SIZE_ESTIMATE := by
  constructor
  · simp only [adaptive_v3_folio_added]
    rw [if_pos h]
    split_ifs <;> simp [dispatch_added_working_set]
  · simp [calculate_working_set_ratio, CACHE_SIZE_ESTIMATE]

theorem C3_working_set_counter_witness :
    is_folio_relevant (fun _ => true) fC3a = true ∧
    ((adaptive_v3_folio_added (fun _ => true) fC3a init_state).working_set_size =
       init_state.working_set_size + 1 ∧
     calculate_working_set_ratio init_state =
       init_state.working_set_size * 100 / CACHE_SIZE_ESTIMATE) :=
  ⟨by decide, C3_working_set_counter (fun _ => true) fC3a init_state (by decide)⟩

/-- C3 counterexample: after two added events for pages of the same inode,
the working-set estimate is 2 while the bounded inode set has cardinality 1,
so the estimate does grow beyond the inode's single membership. -/
theorem C3_working_set_counterexample :
    sC3.working_set_size = 2 ∧ sC3.working_set_map.length = 1 := by
  decide

/-- C4 (confirmed): a switch event is submitted only when all three gate
conditions hold at that instant (enough samples, enough time in the current
policy, window hit rate below the threshold), and if any of the three fails
the tick leaves the whole state unchanged and submits nothing. -/
theorem C4_gate_enforcement (reserveOk : Bool) (s : V3State) :
    (∀ e, (check_and_switch_policy reserveOk s).2 = some e →
       MIN_SAMPLES ≤ s.total_accesses ∧
       MIN_TIME_IN_POLICY ≤ u64_sub s.timestamp s.last_policy_switch_time ∧
       calculate_hit_rate s < HIT_RATE_THRESHOLD) ∧
    ((s.total_accesses < MIN_SAMPLES ∨
      u64_sub s.timestamp s.last_policy_switch_time < MIN_TIME_IN_POLICY ∨
      HIT_RATE_THRESHOLD ≤ calculate_hit_rate s) →
     check_and_switch_policy reserveOk s = (s, none)) := by
  simp only [check_and_switch_policy]
  split_ifs with h1 h2 h3 h4 h5
  · exact ⟨fun e he => by simp at he, fun _ => rfl⟩
  · exact ⟨fun e he => by simp at he, fun _ => rfl⟩
  · exact ⟨fun e he => by simp at he, fun _ => rfl⟩
  · exact ⟨fun e he => by simp at he, fun _ => rfl⟩
  · exact ⟨fun e _ => ⟨by omega, by omega, by omega⟩,
           fun hd => absurd hd (by push_neg; exact ⟨by omega, by omega, by omega⟩)⟩
  · exact ⟨fun e he => by simp at he,
           fun hd => absurd hd (by push_neg; exact ⟨by omega, by omega, by omega⟩)⟩

theorem C4_gate_enforcement_witness :
    (MIN_SAMPLES ≤ sC4.total_accesses ∧
     MIN_TIME_IN_POLICY ≤ u64_sub sC4.timestamp sC4.last_policy_switch_time ∧
     calculate_hit_rate sC4 < HIT_RATE_THRESHOLD) ∧
    check_and_switch_policy true init_state = (init_state, none) :=
  ⟨(C4_gate_enforcement true sC4).1 evC4 (by decide),
   (C4_gate_enforcement true init_state).2 (Or.inl (by decide))⟩

/-- C5 (corrected, amended): once the first six cascade clauses have all
failed, clause 7 fires exactly when the working-set ratio lies strictly
between 100 and 200; at a ratio of exactly 100 or exactly 200 the cascade
falls through to the historical-performance fallback instead of selecting
hit-density. -/
theorem C5_cascade_clause7_strict (s : V3State)
    (h1 : ¬ 300 < calculate_working_set_ratio s)
    (h2 : ¬ calculate_working_set_ratio s < 60)
    (h3 : ¬ 80 < calculate_sequential_ratio s)
    (h4 : ¬ (60 < calculate_one_time_ratio s ∧ calculate_avg_hits_per_page s < 2))
    (h5 : ¬ (5 < calculate_avg_hits_per_page s ∧ calculate_one_time_ratio s < 30))
    (h6 : ¬ (0 < calculate_avg_reuse_distance s ∧ calculate_avg_reuse_distance s < 50000)) :
    decide_best_policy s =
      (if 100 < calculate_working_set_ratio s ∧ calculate_working_set_ratio s < 200
       then POLICY_LHD_SIMPLE else fallback_policy s) ∧
    ((calculate_working_set_ratio s = 100 ∨ calculate_working_set_ratio s = 200) →
      decide_best_policy s = fallback_policy s) := by
  simp only [decide_best_policy]
  rw [if_neg h1, if_neg h2, if_neg h3, if_neg h4, if_neg h5, if_neg h6]
  refine ⟨rfl, fun hws => ?_⟩
  rw [if_neg (by omega)]

theorem C5_cascade_clause7_strict_witness :
    (¬ 300 < calculate_working_set_ratio sC5a) ∧
    (decide_best_policy sC5a =
      (if 100 < calculate_working_set_ratio sC5a ∧ calculate_working_set_ratio sC5a < 200
       then POLICY_LHD_SIMPLE else fallback_policy sC5a) ∧
     ((calculate_working_set_ratio sC5a = 100 ∨ calculate_working_set_ratio sC5a = 200) →
       decide_best_policy sC5a = fallback_policy sC5a)) :=
  ⟨by decide,
   C5_cascade_clause7_strict sC5a (by decide) (by decide) (by decide) (by decide)
     (by decide) (by decide)⟩

/-- C5 counterexample: two states whose working-set ratio is exactly 100 and
exactly 200 (and in which no earlier cascade clause fires); in both the
cascade returns LRU via the fallback, not the hit-density policy the claim
requires at the inclusive boundaries. -/
theorem C5_cascade_counterexample :
    calculate_working_set_ratio sC5a = 100 ∧ decide_best_policy sC5a = POLICY_LRU ∧
    calculate_working_set_ratio sC5b = 200 ∧ decide_best_policy sC5b = POLICY_LRU ∧
    POLICY_LRU ≠ POLICY_LHD_SIMPLE := by
  decide

/-- C6 (confirmed): when the cascade selects the policy already running, the
tick changes nothing — no event is submitted, and every field of the state,
`last_policy_switch_time`, the switch count and the window counters included,
keeps its prior value. -/
theorem C6_no_switch_on_equality (reserveOk : Bool) (s : V3State)
    (h : decide_best_policy s = s.current_policy) :
    check_and_switch_policy reserveOk s = (s, none) := by
  simp only [check_and_switch_policy]
  split_ifs <;> try rfl
  all_goals exact absurd h (by assumption)

theorem C6_no_switch_on_equality_witness :
    decide_best_policy init_state = init_state.current_policy ∧
    check_and_switch_policy true init_state = (init_state, none) :=
  ⟨by decide, C6_no_switch_on_equality true init_state (by decide)⟩

/-- C7 (confirmed): for an in-scope page not yet tracked by the engine,
`added(p)` followed immediately by `evicted(p)` leaves no metadata entry for
`p`, no node referencing `p` in any of the six policy lists, and increments
`total_evictions`, `pages_evicted` and the current policy's eviction tally by
exactly 1. -/
theorem C7_added_evicted_round_trip (wl : Nat → Bool) (f : Folio) (s : V3State)
    (h : is_folio_relevant wl f = true)
    (h1 : f.key ∉ s.mru_list) (h2 : f.key ∉ s.fifo_list) (h3 : f.key ∉ s.lru_list)
    (h4 : f.key ∉ s.s3fifo_small_list) (h5 : f.key ∉ s.s3fifo_main_list)
    (h6 : f.key ∉ s.lhd_list) :
    (adaptive_v3_folio_evicted f (adaptive_v3_folio_added wl f s)).folio_metadata_map f.key = none ∧
    f.key ∉ (adaptive_v3_folio_evicted f (adaptive_v3_folio_added wl f s)).mru_list ∧
    f.key ∉ (adaptive_v3_folio_evicted f (adaptive_v3_folio_added wl f s)).fifo_list ∧
    f.key ∉ (adaptive_v3_folio_evicted f (adaptive_v3_folio_added wl f s)).lru_list ∧
    f.key ∉ (adaptive_v3_folio_evicted f (adaptive_v3_folio_added wl f s)).s3fifo_small_list ∧
    f.key ∉ (adaptive_v3_folio_evicted f (adaptive_v3_folio_added wl f s)).s3fifo_main_list ∧
    f.key ∉ (adaptive_v3_folio_evicted f (adaptive_v3_folio_added wl f s)).lhd_list ∧
    (adaptive_v3_folio_evicted f (adaptive_v3_folio_added wl f s)).total_evictions =
      s.total_evictions + 1 ∧
    (adaptive_v3_folio_evicted f (adaptive_v3_folio_added wl f s)).pages_evicted =
      s.pages_evicted + 1 ∧
    ((adaptive_v3_folio_evicted f (adaptive_v3_folio_added wl f s)).stats s.current_policy).evictions =
      (s.stats s.current_policy).evictions + 1 := by
  obtain ⟨am, ac, ate, ape, ast, l1, l2, l3, l4, l5, l6⟩ := added_spec wl f s h
  have hmt : (adaptive_v3_folio_added wl f s).folio_metadata_map f.key =
      some { added_time := s.timestamp, last_access_time := s.timestamp,
             access_count := 0, current_policy := s.current_policy, freq := 0,
             in_main := false, last_hit_age := 0 } := by
    rw [am]; simp [mapUpdate]
  obtain ⟨e1, e2, e3, e4, e5, e6, e7, e8, e9, e10, e11, _, e13, _⟩ :=
    evicted_spec f (adaptive_v3_folio_added wl f s) _ hmt
  refine ⟨e13, ?_, ?_, ?_, ?_, ?_, ?_, ?_, ?_, ?_⟩
  · rw [e2]; exact not_mem_erase_key f.key _ s.mru_list h1 (l1.imp_right Or.inl)
  · rw [e3]; exact not_mem_erase_key f.key _ s.fifo_list h2 (l2.imp_right Or.inr)
  · rw [e4]; exact not_mem_erase_key f.key _ s.lru_list h3 (l3.imp_right Or.inr)
  · rw [e5]; exact not_mem_erase_key f.key _ s.s3fifo_small_list h4 (l4.imp_right Or.inr)
  · rw [e6]; exact not_mem_erase_key f.key _ s.s3fifo_main_list h5 (Or.inl l5)
  · rw [e7]; exact not_mem_erase_key f.key _ s.lhd_list h6 (l6.imp_right Or.inr)
  · rw [e8, ate]
  · rw [e9, ape]
  · rw [e11 s.current_policy, ast, ac, if_pos rfl]

theorem C7_added_evicted_round_trip_witness :
    is_folio_relevant (fun _ => true) fC3a = true ∧
    ((adaptive_v3_folio_evicted fC3a (adaptive_v3_folio_added (fun _ => true) fC3a init_state)).folio_metadata_map fC3a.key = none ∧
     fC3a.key ∉ (adaptive_v3_folio_evicted fC3a (adaptive_v3_folio_added (fun _ => true) fC3a init_state)).mru_list ∧
     fC3a.key ∉ (adaptive_v3_folio_evicted fC3a (adaptive_v3_folio_added (fun _ => true) fC3a init_state)).fifo_list ∧
     fC3a.key ∉ (adaptive_v3_folio_evicted fC3a (adaptive_v3_folio_added (fun _ => true) fC3a init_state)).lru_list ∧
     fC3a.key ∉ (adaptive_v3_folio_evicted fC3a (adaptive_v3_folio_added (fun _ => true) fC3a init_state)).s3fifo_small_list ∧
     fC3a.key ∉ (adaptive_v3_folio_evicted fC3a (adaptive_v3_folio_added (fun _ => true) fC3a init_state)).s3fifo_main_list ∧
     fC3a.key ∉ (adaptive_v3_folio_evicted fC3a (adaptive_v3_folio_added (fun _ => true) fC3a init_state)).lhd_list ∧
     (adaptive_v3_folio_evicted fC3a (adaptive_v3_folio_added (fun _ => true) fC3a init_state)).total_evictions =
       init_state.total_evictions + 1 ∧
     (adaptive_v3_folio_evicted fC3a (adaptive_v3_folio_added (fun _ => true) fC3a init_state)).pages_evicted =
       init_state.pages_evicted + 1 ∧
     ((adaptive_v3_folio_evicted fC3a (adaptive_v3_folio_added (fun _ => true) fC3a init_state)).stats init_state.current_policy).evictions =
       (init_state.stats init_state.current_policy).evictions + 1) :=
  ⟨by decide,
   C7_added_evicted_round_trip (fun _ => true) fC3a init_state (by decide)
     (by decide) (by decide) (by decide) (by decide) (by decide) (by decide)⟩

/-- C8 (confirmed): the S3-FIFO `freq` field is a saturating 0..3 counter.
Starting from any state whose metadata entries all carry `freq` in 0..3, any
sequence of engine events (added, accessed, evicted, controller ticks,
small-queue and main-queue iterate visits) preserves that range — on-access
increments saturate at 3 and the main-queue decrement fires only on positive
`freq` — and the entry created by an in-scope `added` starts at `freq = 0`. -/
theorem C8_freq_saturating_range (wl : Nat → Bool) (evs : List V3Event) (s : V3State)
    (hs : FreqInv s) :
    FreqInv (v3_run wl evs s) ∧
    (∀ f meta, is_folio_relevant wl f = true →
       (adaptive_v3_folio_added wl f s).folio_metadata_map f.key = some meta →
       meta.freq = 0) := by
  refine ⟨freq_inv_run wl evs s hs, ?_⟩
  intro f meta hf hm
  rw [(added_spec wl f s hf).1] at hm
  simp [mapUpdate] at hm
  subst hm
  rfl

theorem C8_freq_saturating_range_witness :
    FreqInv init_state ∧
    (FreqInv (v3_run (fun _ => true)
        [V3Event.added fC3a, V3Event.accessed fC3a] init_state) ∧
     (∀ f meta, is_folio_relevant (fun _ => true) f = true →
        (adaptive_v3_folio_added (fun _ => true) f init_state).folio_metadata_map f.key =
          some meta →
        meta.freq = 0)) :=
  have hs : FreqInv init_state := fun k m h => by simp [init_state] at h
  ⟨hs, C8_freq_saturating_range (fun _ => true)
        [V3Event.added fC3a, V3Event.accessed fC3a] init_state hs⟩

/-- C9 (confirmed): `s3fifo_small_size` agrees with the small queue only
until a promotion or a cross-policy eviction: a small-queue visit that
promotes a node (`freq` above 1) moves the node to the main queue without
touching either size counter; evicting a page that has metadata while the
current policy is not S3-FIFO unlinks the node but skips the size decrement;
and from the concrete post-switch state `sD` — where the counter still
matches the queue — one such eviction leaves `s3fifo_small_size = 1` over an
empty small queue, so the counter exceeds the queue's true length. -/
theorem C9_s3fifo_size_counter_drift :
    (∀ (s : V3State) (idx : Nat) (node : Folio) (m : folio_metadata),
       node.uptodate = true → node.lru = true →
       s.folio_metadata_map node.key = some m → 1 < m.freq →
       (s3fifo_small_iterate_step s idx node).s3fifo_small_size = s.s3fifo_small_size ∧
       (s3fifo_small_iterate_step s idx node).s3fifo_main_size = s.s3fifo_main_size ∧
       (s3fifo_small_iterate_step s idx node).folio_metadata_map node.key =
         some { m with in_main := true } ∧
       (s3fifo_small_iterate_step s idx node).s3fifo_small_list =
         s.s3fifo_small_list.erase node.key) ∧
    (∀ (f : Folio) (s : V3State) (m : folio_metadata),
       s.current_policy ≠ POLICY_S3FIFO →
       s.folio_metadata_map f.key = some m →
       (adaptive_v3_folio_evicted f s).s3fifo_small_size = s.s3fifo_small_size ∧
       (adaptive_v3_folio_evicted f s).s3fifo_small_list = s.s3fifo_small_list.erase f.key) ∧
    (sD.s3fifo_small_size = (sD.s3fifo_small_list.length : Int) ∧
     sD.current_policy ≠ POLICY_S3FIFO ∧
     (adaptive_v3_folio_evicted fD sD).s3fifo_small_size = 1 ∧
     (adaptive_v3_folio_evicted fD sD).s3fifo_small_list = []) := by
  refine ⟨?_, ?_, ?_⟩
  · intro s idx node m hup hlru hm hfreq
    unfold s3fifo_small_iterate_step s3fifo_small_iterate_fn
    rw [if_neg (by simp [hup, hlru])]
    simp only [hm]
    rw [if_pos hfreq]
    exact ⟨rfl, rfl, by simp [mapUpdate], rfl⟩
  · intro f s m hp hm
    obtain ⟨_, _, _, _, e5, _, _, _, _, _, _, _, _, e14⟩ := evicted_spec f s m hm
    exact ⟨e14 hp, e5⟩
  · decide

theorem C9_s3fifo_size_counter_drift_witness :
    (fW.uptodate = true ∧ fW.lru = true ∧
     sW.folio_metadata_map fW.key = some metaW ∧ 1 < metaW.freq ∧
     ((s3fifo_small_iterate_step sW 0 fW).s3fifo_small_size = sW.s3fifo_small_size ∧
      (s3fifo_small_iterate_step sW 0 fW).s3fifo_main_size = sW.s3fifo_main_size ∧
      (s3fifo_small_iterate_step sW 0 fW).folio_metadata_map fW.key =
        some { metaW with in_main := true } ∧
      (s3fifo_small_iterate_step sW 0 fW).s3fifo_small_list =
        sW.s3fifo_small_list.erase fW.key)) ∧
    ((adaptive_v3_folio_evicted fD sD).s3fifo_small_size = sD.s3fifo_small_size ∧
     (adaptive_v3_folio_evicted fD sD).s3fifo_small_list = sD.s3fifo_small_list.erase fD.key) :=
  ⟨⟨by decide, by decide, by decide, by decide,
    C9_s3fifo_size_counter_drift.1 sW 0 fW metaW (by decide) (by decide) (by decide) (by decide)⟩,
   C9_s3fifo_size_counter_drift.2.1 fD sD metaD (by decide) (by decide)⟩

/-- C10 (confirmed): the `evicted` hook consults no inode watchlist and needs
no metadata for its global tallies — for every folio and every state it
increments `total_evictions` and the current policy's eviction counter, and
`dirty_evictions` exactly when the folio is dirty; only the per-page
aggregates (one-time/multi split, hits-per-page, lifetime, idle) require a
metadata entry, and they stay untouched for a never-added folio. -/
theorem C10_evicted_unfiltered_tallies :
    (∀ (f : Folio) (s : V3State),
       (adaptive_v3_folio_evicted f s).total_evictions = s.total_evictions + 1 ∧
       ((adaptive_v3_folio_evicted f s).stats s.current_policy).evictions =
         (s.stats s.current_policy).evictions + 1 ∧
       (adaptive_v3_folio_evicted f s).dirty_evictions =
         s.dirty_evictions + (if f.dirty = true then 1 else 0)) ∧
    (∀ (f : Folio) (s : V3State), s.folio_metadata_map f.key = none →
       (adaptive_v3_folio_evicted f s).one_time_accesses = s.one_time_accesses ∧
       (adaptive_v3_folio_evicted f s).multi_accesses = s.multi_accesses ∧
       (adaptive_v3_folio_evicted f s).total_hits_sum = s.total_hits_sum ∧
       (adaptive_v3_folio_evicted f s).pages_evicted = s.pages_evicted ∧
       (adaptive_v3_folio_evicted f s).total_lifetime_sum = s.total_lifetime_sum ∧
       (adaptive_v3_folio_evicted f s).total_idle_time_sum = s.total_idle_time_sum) := by
  constructor
  · intro f s
    cases hm : s.folio_metadata_map f.key with
    | none =>
      obtain ⟨e1, e2, e3, _⟩ := evicted_nometa_spec f s hm
      exact ⟨e1, by rw [e2 s.current_policy, if_pos rfl], e3⟩
    | some meta =>
      obtain ⟨_, _, _, _, _, _, _, e8, _, _, e11, e12, _, _⟩ := evicted_spec f s meta hm
      exact ⟨e8, by rw [e11 s.current_policy, if_pos rfl], e12⟩
  · intro f s hm
    obtain ⟨_, _, _, e4, e5, e6, e7, e8, e9, _⟩ := evicted_nometa_spec f s hm
    exact ⟨e4, e5, e6, e7, e8, e9⟩

theorem C10_evicted_unfiltered_tallies_witness :
    ((adaptive_v3_folio_evicted fD init_state).total_evictions =
       init_state.total_evictions + 1 ∧
     ((adaptive_v3_folio_evicted fD init_state).stats init_state.current_policy).evictions =
       (init_state.stats init_state.current_policy).evictions + 1 ∧
     (adaptive_v3_folio_evicted fD init_state).dirty_evictions =
       init_state.dirty_evictions + (if fD.dirty = true then 1 else 0)) ∧
    (init_state.folio_metadata_map fD.key = none ∧
     ((adaptive_v3_folio_evicted fD init_state).one_time_accesses =
        init_state.one_time_accesses ∧
      (adaptive_v3_folio_evicted fD init_state).multi_accesses = init_state.multi_accesses ∧
      (adaptive_v3_folio_evicted fD init_state).total_hits_sum = init_state.total_hits_sum ∧
      (adaptive_v3_folio_evicted fD init_state).pages_evicted = init_state.pages_evicted ∧
      (adaptive_v3_folio_evicted fD init_state).total_lifetime_sum =
        init_state.total_lifetime_sum ∧
      (adaptive_v3_folio_evicted fD init_state).total_idle_time_sum =
        init_state.total_idle_time_sum)) :=
  ⟨C10_evicted_unfiltered_tallies.1 fD init_state,
   by decide,
   C10_evicted_unfiltered_tallies.2 fD init_state (by decide)⟩

end CacheExtV3
